import Mathlib

/-!
Shallow embedding of the mortgage loan calculation engine
(`src/mortgage_loan_calculator_tool/main.py`, method `calculate_mortgage_loan`
of `MortgageLoanCalculatorTool`).

Monetary quantities and rates are modelled as exact rationals (`ℚ`): the
Python code computes with floats, and the spec's numeric properties are
stated up to rounding tolerance, so the exact-arithmetic model is the
intended semantics. Python's `round(x, 2)` is modelled as rounding
`x * 100` to the nearest integer and dividing by 100. Input dictionary
values are modelled as either a numeric value or a malformed value on
which `float()` / `int()` coercion raises, so the `try/except` boundary of
the code is observable.
-/

namespace Mortgage

/-- A value stored in the `loan_details` dictionary: either a number, or a
malformed value (e.g. a non-numeric string) on which numeric coercion
raises an exception. -/
inductive PyVal where
  | num (q : ℚ)
  | malformed (s : String)
deriving DecidableEq, Repr

/-- Python `float(v)`: numbers coerce to themselves, malformed values raise
`ValueError`, modelled as an `Except.error` carrying the message. -/
def toFloat : PyVal → Except String ℚ
  | .num q => Except.ok q
  | .malformed s => Except.error ("could not convert string to float: '" ++ s ++ "'")

/-- Python `int(v)`: numbers truncate toward zero, malformed values raise
`ValueError`. -/
def toInt : PyVal → Except String ℤ
  | .num q => Except.ok (q.num.tdiv (q.den : ℤ))
  | .malformed s => Except.error ("invalid literal for int() with base 10: '" ++ s ++ "'")

/-- The raw `loan_details` dictionary: each key is present with some value or
absent (`none`), in which case `dict.get` supplies the default. -/
structure LoanDetails where
  principal : Option PyVal := none
  annual_interest_rate : Option PyVal := none
  loan_term_years : Option PyVal := none
  down_payment : Option PyVal := none
  property_tax : Option PyVal := none
  insurance : Option PyVal := none
  pmi : Option PyVal := none
deriving DecidableEq, Repr

/-- The numeric parameters after the `float(...)`/`int(...)` extraction lines
at the top of `calculate_mortgage_loan`. -/
structure MortgageParams where
  principal : ℚ
  annual_interest_rate : ℚ
  loan_term_years : ℤ
  down_payment : ℚ
  property_tax : ℚ
  insurance : ℚ
  pmi_rate : ℚ
deriving DecidableEq, Repr

/-- Coercion of a possibly-absent dictionary value with a numeric default,
as in `float(loan_details.get('principal', 0))`. -/
def getFloat (v : Option PyVal) (dflt : ℚ) : Except String ℚ :=
  match v with
  | none => Except.ok dflt
  | some w => toFloat w

/-- Coercion of a possibly-absent dictionary value with an integer default,
as in `int(loan_details.get('loan_term_years', 30))`. -/
def getInt (v : Option PyVal) (dflt : ℤ) : Except String ℤ :=
  match v with
  | none => Except.ok dflt
  | some w => toInt w

/-- The parameter-extraction block of `calculate_mortgage_loan`
(lines `principal = float(...)` through `pmi_rate = float(...)`), one
fallible coercion per line; any coercion failure is an exception escaping
this block. -/
def extractParams (d : LoanDetails) : Except String MortgageParams :=
  match getFloat d.principal 0 with
  | Except.error e => Except.error e
  | Except.ok principal =>
  match getFloat d.annual_interest_rate 0 with
  | Except.error e => Except.error e
  | Except.ok annual_interest_rate =>
  match getInt d.loan_term_years 30 with
  | Except.error e => Except.error e
  | Except.ok loan_term_years =>
  match getFloat d.down_payment 0 with
  | Except.error e => Except.error e
  | Except.ok down_payment =>
  match getFloat d.property_tax 0 with
  | Except.error e => Except.error e
  | Except.ok property_tax =>
  match getFloat d.insurance 0 with
  | Except.error e => Except.error e
  | Except.ok insurance =>
  match getFloat d.pmi 0 with
  | Except.error e => Except.error e
  | Except.ok pmi_rate =>
    Except.ok ⟨principal, annual_interest_rate, loan_term_years, down_payment,
               property_tax, insurance, pmi_rate⟩

/-- One row of the yearly amortization schedule. -/
structure AmortizationRow where
  year : ℕ
  principal_paid : ℚ
  interest_paid : ℚ
  remaining_balance : ℚ
deriving DecidableEq, Repr

/-- The `monthly_breakdown` sub-dictionary of the result. -/
structure MonthlyBreakdown where
  principal_and_interest : ℚ
  property_tax : ℚ
  insurance : ℚ
  pmi : ℚ
deriving DecidableEq, Repr

/-- The result dictionary returned on success. -/
structure MortgageResult where
  monthly_payment : ℚ
  total_monthly_payment : ℚ
  total_payment : ℚ
  total_interest : ℚ
  monthly_breakdown : MonthlyBreakdown
  amortization_schedule : List AmortizationRow
deriving DecidableEq, Repr

/-- Python `round(x, 2)`: round to two decimal places. (Tie-breaking at exact
half-cents differs between Python's banker's rounding and `round`; no claim
depends on tie behaviour.) -/
def round2 (q : ℚ) : ℚ := ((round (q * 100) : ℤ) : ℚ) / 100

/-- Derived loan amount: `loan_amount = principal - down_payment`. -/
def loanAmount (p : MortgageParams) : ℚ := p.principal - p.down_payment

/-- Derived monthly rate: `monthly_interest_rate = annual_interest_rate / 100 / 12`. -/
def monthlyRate (p : MortgageParams) : ℚ := p.annual_interest_rate / 100 / 12

/-- Derived period count: `num_payments = loan_term_years * 12`. -/
def numPayments (p : MortgageParams) : ℕ := p.loan_term_years.toNat * 12

/-- The fixed monthly principal-and-interest payment: annuity formula for a
positive monthly rate, simple division for rate zero. -/
def monthlyPayment (loan_amount monthly_rate : ℚ) (num_payments : ℕ) : ℚ :=
  if monthly_rate > 0 then
    loan_amount * (monthly_rate * (1 + monthly_rate) ^ num_payments) /
      ((1 + monthly_rate) ^ num_payments - 1)
  else
    loan_amount / (num_payments : ℚ)

/-- Monthly PMI: active only if `down_payment < 0.2 * principal` and
`pmi_rate > 0`. -/
def pmiMonthly (p : MortgageParams) : ℚ :=
  if p.down_payment < 0.2 * p.principal ∧ p.pmi_rate > 0 then
    (loanAmount p * p.pmi_rate / 100) / 12
  else 0

/-- One month of the inner amortization loop, as a balance transformer: if the
balance has reached zero the loop body is skipped (the `break`), otherwise
interest accrues, the principal part is paid off, and a negative result is
clamped to zero. -/
def monthStep (r pay bal : ℚ) : ℚ :=
  if bal ≤ 0 then bal
  else
    let month_interest := bal * r
    let month_principal := pay - month_interest
    let bal2 := bal - month_principal
    if bal2 < 0 then 0 else bal2

/-- The inner `for month in range(1, 13)` loop: processes `m` remaining months
starting from balance `bal` with accumulated year interest `yi` and year
principal `yp`; returns (final balance, year interest, year principal). -/
def simYear (r pay : ℚ) : ℕ → ℚ → ℚ → ℚ → ℚ × ℚ × ℚ
  | 0, bal, yi, yp => (bal, yi, yp)
  | m + 1, bal, yi, yp =>
    if bal ≤ 0 then (bal, yi, yp)
    else
      let month_interest := bal * r
      let month_principal := pay - month_interest
      let bal2 := bal - month_principal
      let bal3 := if bal2 < 0 then 0 else bal2
      simYear r pay m bal3 (yi + month_interest) (yp + month_principal)

/-- The outer `for year in range(1, loan_term_years + 1)` loop, producing one
`AmortizationRow` per year; `k` years remain, the next row is labelled
`year`, and the running balance is `bal`. -/
def buildSchedule (r pay : ℚ) : ℕ → ℕ → ℚ → List AmortizationRow
  | 0, _, _ => []
  | k + 1, year, bal =>
    let s := simYear r pay 12 bal 0 0
    { year := year
      principal_paid := round2 s.2.2
      interest_paid := round2 s.2.1
      remaining_balance := round2 s.1 } :: buildSchedule r pay k (year + 1) s.1

/-- The computation performed after validation succeeds: payment, escrow, PMI,
totals, and the amortization schedule, assembled into the result dictionary
with 2-decimal rounding at the boundary. -/
def computeResult (p : MortgageParams) : MortgageResult :=
  let loan_amount := loanAmount p
  let monthly_interest_rate := monthlyRate p
  let num_payments := numPayments p
  let pmi_monthly := pmiMonthly p
  let monthly_payment := monthlyPayment loan_amount monthly_interest_rate num_payments
  let monthly_property_tax := if p.property_tax > 0 then p.property_tax / 12 else 0
  let monthly_insurance := if p.insurance > 0 then p.insurance / 12 else 0
  let total_monthly_payment :=
    monthly_payment + monthly_property_tax + monthly_insurance + pmi_monthly
  let total_principal_interest := monthly_payment * (num_payments : ℚ)
  let total_payment := total_principal_interest +
    (monthly_property_tax + monthly_insurance + pmi_monthly) * (num_payments : ℚ)
  let total_interest := total_principal_interest - loan_amount
  { monthly_payment := round2 monthly_payment
    total_monthly_payment := round2 total_monthly_payment
    total_payment := round2 total_payment
    total_interest := round2 total_interest
    monthly_breakdown :=
      { principal_and_interest := round2 monthly_payment
        property_tax := round2 monthly_property_tax
        insurance := round2 monthly_insurance
        pmi := round2 pmi_monthly }
    amortization_schedule :=
      buildSchedule monthly_interest_rate monthly_payment p.loan_term_years.toNat 1 loan_amount }

/-- The full entry point: extraction (whose exceptions are caught by the
outermost `try/except` and rendered as `"Error: {e}"`), then the four
validation checks (each returning its error string), then the computation. -/
def calculate_mortgage_loan (d : LoanDetails) : Except String MortgageResult :=
  match extractParams d with
  | Except.error e => Except.error ("Error: " ++ e)
  | Except.ok p =>
    if p.principal ≤ 0 then
      Except.error "Error: Loan principal must be greater than zero"
    else if p.annual_interest_rate < 0 then
      Except.error "Error: Interest rate cannot be negative"
    else if p.loan_term_years ≤ 0 then
      Except.error "Error: Loan term must be greater than zero"
    else if p.principal - p.down_payment ≤ 0 then
      Except.error "Error: Loan amount after down payment must be greater than zero"
    else
      Except.ok (computeResult p)

/-- The four validation error strings, in check order. -/
def validationMessages : List String :=
  ["Error: Loan principal must be greater than zero",
   "Error: Interest rate cannot be negative",
   "Error: Loan term must be greater than zero",
   "Error: Loan amount after down payment must be greater than zero"]

/-- The conditions under which all four validation checks pass: this is
exactly the profile of a request the spec calls "validated". -/
def ValidParams (p : MortgageParams) : Prop :=
  0 < p.principal ∧ 0 ≤ p.annual_interest_rate ∧ 0 < p.loan_term_years ∧ 0 < loanAmount p

instance (p : MortgageParams) : Decidable (ValidParams p) := by
  unfold ValidParams
  infer_instance

/-- The interest accrued by the inner loop over `m` months starting from
balance `bal` (respecting the early `break` when the balance is zero). -/
def intSum (r pay : ℚ) : ℕ → ℚ → ℚ
  | 0, _ => 0
  | m + 1, bal =>
    if bal ≤ 0 then 0 else bal * r + intSum r pay m (monthStep r pay bal)

/-- The principal paid by the inner loop over `m` months starting from
balance `bal` (respecting the early `break` when the balance is zero). -/
def prinSum (r pay : ℚ) : ℕ → ℚ → ℚ
  | 0, _ => 0
  | m + 1, bal =>
    if bal ≤ 0 then 0 else (pay - bal * r) + prinSum r pay m (monthStep r pay bal)

end Mortgage

namespace Mortgage

/-! ### Basic lemmas about rounding and the monthly step -/

lemma round2_zero : round2 0 = 0 := by
  simp [round2]

lemma round2_mono {x y : ℚ} (h : x ≤ y) : round2 x ≤ round2 y := by
  unfold round2
  have hr : round (x * 100) ≤ round (y * 100) := by
    rw [round_eq, round_eq]
    exact Int.floor_le_floor (by linarith)
  have : ((round (x * 100) : ℤ) : ℚ) ≤ ((round (y * 100) : ℤ) : ℚ) := by exact_mod_cast hr
  linarith

lemma abs_round2_sub_le (q : ℚ) : |round2 q - q| ≤ 1 / 200 := by
  unfold round2
  have h : |((round (q * 100) : ℤ) : ℚ) - q * 100| ≤ 1 / 2 := by
    rw [abs_sub_comm]
    exact abs_sub_round (q * 100)
  have heq : ((round (q * 100) : ℤ) : ℚ) / 100 - q =
      (((round (q * 100) : ℤ) : ℚ) - q * 100) / 100 := by ring
  rw [heq, abs_div, abs_of_pos (show (0:ℚ) < 100 by norm_num)]
  linarith

lemma monthStep_of_nonpos {r pay bal : ℚ} (h : bal ≤ 0) : monthStep r pay bal = bal := by
  simp [monthStep, h]

lemma monthStep_of_pos {r pay bal : ℚ} (h : 0 < bal) :
    monthStep r pay bal =
      if bal - (pay - bal * r) < 0 then 0 else bal - (pay - bal * r) := by
  simp [monthStep, not_le.2 h]

lemma monthStep_nonneg {r pay bal : ℚ} (h : 0 ≤ bal) : 0 ≤ monthStep r pay bal := by
  rcases lt_or_eq_of_le h with hb | hb
  · rw [monthStep_of_pos hb]
    split
    · exact le_refl 0
    · next hge => exact le_of_not_lt hge
  · rw [← hb, monthStep_of_nonpos (le_refl 0)]

lemma monthStep_le_self {r pay bal : ℚ} (_hr : 0 ≤ r) (hb : 0 ≤ bal)
    (hinv : bal * r < pay) : monthStep r pay bal ≤ bal := by
  rcases lt_or_eq_of_le hb with hb' | hb'
  · rw [monthStep_of_pos hb']
    split
    · linarith
    · linarith
  · rw [← hb', monthStep_of_nonpos (le_refl 0)]

lemma monthStep_mono {r pay a b : ℚ} (hr : 0 ≤ r) (ha : 0 ≤ a) (hab : a ≤ b) :
    monthStep r pay a ≤ monthStep r pay b := by
  rcases lt_or_eq_of_le ha with ha' | ha'
  · have hb' : 0 < b := lt_of_lt_of_le ha' hab
    rw [monthStep_of_pos ha', monthStep_of_pos hb']
    have hle : a - (pay - a * r) ≤ b - (pay - b * r) := by nlinarith
    split
    · split
      · exact le_refl 0
      · next hge => exact le_of_not_lt hge
    · next hge =>
      split
      · next hlt => exact absurd (lt_of_le_of_lt hle hlt) hge
      · exact hle
  · have hb : 0 ≤ b := le_trans ha hab
    rw [← ha', monthStep_of_nonpos (le_refl 0)]
    exact monthStep_nonneg hb

/-! ### The iterated monthly step and the loop invariant -/

lemma iterate_monthStep_nonneg {r pay bal : ℚ} (h : 0 ≤ bal) (k : ℕ) :
    0 ≤ (monthStep r pay)^[k] bal := by
  induction k generalizing bal with
  | zero => simpa using h
  | succ k ih =>
    rw [Function.iterate_succ_apply]
    exact ih (monthStep_nonneg h)

lemma iterate_monthStep_invariant {r pay bal : ℚ} (hr : 0 ≤ r) (h0 : 0 ≤ bal)
    (hinv : bal * r < pay) (k : ℕ) :
    0 ≤ (monthStep r pay)^[k] bal ∧ (monthStep r pay)^[k] bal * r < pay := by
  induction k generalizing bal with
  | zero => exact ⟨h0, by simpa using hinv⟩
  | succ k ih =>
    rw [Function.iterate_succ_apply]
    refine ih (monthStep_nonneg h0) ?_
    have hstep : monthStep r pay bal ≤ bal := monthStep_le_self hr h0 hinv
    calc monthStep r pay bal * r ≤ bal * r :=
          mul_le_mul_of_nonneg_right hstep hr
      _ < pay := hinv

lemma iterate_monthStep_le_self {r pay bal : ℚ} (hr : 0 ≤ r) (h0 : 0 ≤ bal)
    (hinv : bal * r < pay) (k : ℕ) :
    (monthStep r pay)^[k] bal ≤ bal := by
  induction k generalizing bal with
  | zero => simp
  | succ k ih =>
    rw [Function.iterate_succ_apply]
    have h1 : monthStep r pay bal ≤ bal := monthStep_le_self hr h0 hinv
    have h2 : monthStep r pay bal * r < pay := by
      calc monthStep r pay bal * r ≤ bal * r := mul_le_mul_of_nonneg_right h1 hr
        _ < pay := hinv
    exact le_trans (ih (monthStep_nonneg h0) h2) h1

/-! ### The inner loop computes the iterated step and the running sums -/

lemma simYear_eq (r pay : ℚ) :
    ∀ (m : ℕ) (bal yi yp : ℚ),
      simYear r pay m bal yi yp =
        ((monthStep r pay)^[m] bal, yi + intSum r pay m bal, yp + prinSum r pay m bal) := by
  intro m
  induction m with
  | zero => intro bal yi yp; simp [simYear, intSum, prinSum]
  | succ m ih =>
    intro bal yi yp
    by_cases h : bal ≤ 0
    · have hfix : monthStep r pay bal = bal := monthStep_of_nonpos h
      rw [show simYear r pay (m + 1) bal yi yp = (bal, yi, yp) by simp [simYear, h]]
      rw [Function.iterate_fixed hfix]
      simp [intSum, prinSum, h]
    · have hstep : simYear r pay (m + 1) bal yi yp =
          simYear r pay m (monthStep r pay bal) (yi + bal * r) (yp + (pay - bal * r)) := by
        simp [simYear, monthStep, h]
      rw [hstep, ih]
      rw [Function.iterate_succ_apply]
      simp only [intSum, prinSum, if_neg h, Prod.mk.injEq]
      refine ⟨trivial, by ring, by ring⟩

/-! ### Shape of the yearly schedule -/

lemma buildSchedule_length (r pay : ℚ) :
    ∀ (k year : ℕ) (bal : ℚ), (buildSchedule r pay k year bal).length = k := by
  intro k
  induction k with
  | zero => intro year bal; simp [buildSchedule]
  | succ k ih => intro year bal; simp [buildSchedule, ih]

lemma buildSchedule_getElem (r pay : ℚ) :
    ∀ (k year : ℕ) (bal : ℚ) (i : ℕ), i < k →
      (buildSchedule r pay k year bal)[i]? =
        some { year := year + i
               principal_paid := round2 (prinSum r pay 12 ((monthStep r pay)^[12 * i] bal))
               interest_paid := round2 (intSum r pay 12 ((monthStep r pay)^[12 * i] bal))
               remaining_balance := round2 ((monthStep r pay)^[12 * (i + 1)] bal) } := by
  intro k
  induction k with
  | zero => intro year bal i hi; omega
  | succ k ih =>
    intro year bal i hi
    rw [show buildSchedule r pay (k + 1) year bal =
        { year := year
          principal_paid := round2 (simYear r pay 12 bal 0 0).2.2
          interest_paid := round2 (simYear r pay 12 bal 0 0).2.1
          remaining_balance := round2 (simYear r pay 12 bal 0 0).1 }
        :: buildSchedule r pay k (year + 1) (simYear r pay 12 bal 0 0).1 from rfl]
    cases i with
    | zero =>
      simp only [List.getElem?_cons_zero, simYear_eq, Option.some.injEq]
      simp
    | succ j =>
      have hj : j < k := by omega
      rw [List.getElem?_cons_succ, ih (year + 1) (simYear r pay 12 bal 0 0).1 j hj]
      rw [simYear_eq]
      have h1 : (monthStep r pay)^[12 * j] ((monthStep r pay)^[12] bal) =
          (monthStep r pay)^[12 * (j + 1)] bal := by
        rw [← Function.iterate_add_apply]
        congr 1
      have h2 : (monthStep r pay)^[12 * (j + 1)] ((monthStep r pay)^[12] bal) =
          (monthStep r pay)^[12 * (j + 1 + 1)] bal := by
        rw [← Function.iterate_add_apply]
        congr 1
      simp only [h1, h2]
      congr 2
      omega

/-! ### Monotonicity of the accrued-interest sums -/

lemma intSum_nonneg {r pay : ℚ} (hr : 0 ≤ r) :
    ∀ (m : ℕ) (bal : ℚ), 0 ≤ intSum r pay m bal := by
  intro m
  induction m with
  | zero => intro bal; simp [intSum]
  | succ m ih =>
    intro bal
    simp only [intSum]
    split
    · exact le_refl 0
    · next h =>
      have hb : 0 < bal := not_le.1 h
      have h1 : 0 ≤ bal * r := mul_nonneg hb.le hr
      linarith [ih (monthStep r pay bal)]

lemma intSum_mono {r pay : ℚ} (hr : 0 ≤ r) :
    ∀ (m : ℕ) {a b : ℚ}, 0 ≤ a → a ≤ b →
      intSum r pay m a ≤ intSum r pay m b := by
  intro m
  induction m with
  | zero => intro a b _ _; simp [intSum]
  | succ m ih =>
    intro a b ha hab
    simp only [intSum]
    by_cases h : a ≤ 0
    · rw [if_pos h]
      split
      · exact le_refl 0
      · next hb =>
        have hb' : 0 < b := not_le.1 hb
        exact add_nonneg (mul_nonneg hb'.le hr) (intSum_nonneg hr m _)
    · have ha' : 0 < a := not_le.1 h
      have hb' : 0 < b := lt_of_lt_of_le ha' hab
      rw [if_neg h, if_neg (not_le.2 hb')]
      have h1 : a * r ≤ b * r := mul_le_mul_of_nonneg_right hab hr
      have h2 : intSum r pay m (monthStep r pay a) ≤ intSum r pay m (monthStep r pay b) :=
        ih (monthStep_nonneg ha'.le) (monthStep_mono hr ha'.le hab)
      linarith

/-! ### The monthly payment -/

lemma monthlyPayment_of_pos {L r : ℚ} {n : ℕ} (hr : 0 < r) :
    monthlyPayment L r n = L * (r * (1 + r) ^ n) / ((1 + r) ^ n - 1) := by
  simp [monthlyPayment, hr]

lemma monthlyPayment_of_zero {L : ℚ} {n : ℕ} :
    monthlyPayment L 0 n = L / (n : ℚ) := by
  simp [monthlyPayment]

lemma pow_den_pos {r : ℚ} (hr : 0 < r) {n : ℕ} (hn : 0 < n) :
    0 < (1 + r) ^ n - 1 := by
  have h : (1:ℚ) < (1 + r) ^ n := one_lt_pow₀ (by linarith) hn.ne'
  linarith

lemma monthlyPayment_pos {L r : ℚ} {n : ℕ} (hL : 0 < L) (hr : 0 ≤ r) (hn : 0 < n) :
    0 < monthlyPayment L r n := by
  rcases lt_or_eq_of_le hr with hr' | hr'
  · rw [monthlyPayment_of_pos hr']
    exact div_pos (mul_pos hL (mul_pos hr' (pow_pos (by linarith) n))) (pow_den_pos hr' hn)
  · rw [← hr', monthlyPayment_of_zero]
    exact div_pos hL (by exact_mod_cast hn)

lemma mul_rate_lt_monthlyPayment {L r : ℚ} {n : ℕ} (hL : 0 < L) (hr : 0 ≤ r) (hn : 0 < n) :
    L * r < monthlyPayment L r n := by
  rcases lt_or_eq_of_le hr with hr' | hr'
  · rw [monthlyPayment_of_pos hr']
    have hden := pow_den_pos hr' hn
    rw [lt_div_iff₀ hden]
    nlinarith [mul_pos hL hr']
  · rw [← hr', monthlyPayment_of_zero, mul_zero]
    exact div_pos hL (by exact_mod_cast hn)

/-! ### Closed form of the simulated balance and exact payoff -/

lemma balSeq_closed_pos {L r : ℚ} {n : ℕ} (hL : 0 < L) (hr : 0 < r) (hn : 0 < n) :
    ∀ k, k ≤ n →
      (monthStep r (monthlyPayment L r n))^[k] L =
        L * ((1 + r) ^ n - (1 + r) ^ k) / ((1 + r) ^ n - 1) := by
  have hden := pow_den_pos hr hn
  have hone : (1:ℚ) < 1 + r := by linarith
  intro k
  induction k with
  | zero =>
    intro _
    simp only [Function.iterate_zero_apply, pow_zero]
    field_simp
  | succ k ih =>
    intro hk1
    have hk : k < n := hk1
    rw [Function.iterate_succ_apply', ih (le_of_lt hk)]
    have hBpos : 0 < L * ((1 + r) ^ n - (1 + r) ^ k) / ((1 + r) ^ n - 1) :=
      div_pos (mul_pos hL (sub_pos.2 (pow_lt_pow_right₀ hone hk))) hden
    rw [monthStep_of_pos hBpos, monthlyPayment_of_pos hr]
    have hval : L * ((1 + r) ^ n - (1 + r) ^ k) / ((1 + r) ^ n - 1) -
        (L * (r * (1 + r) ^ n) / ((1 + r) ^ n - 1) -
          L * ((1 + r) ^ n - (1 + r) ^ k) / ((1 + r) ^ n - 1) * r) =
        L * ((1 + r) ^ n - (1 + r) ^ (k + 1)) / ((1 + r) ^ n - 1) := by
      field_simp
      ring
    have hnext : 0 ≤ L * ((1 + r) ^ n - (1 + r) ^ (k + 1)) / ((1 + r) ^ n - 1) :=
      div_nonneg (mul_nonneg hL.le
        (sub_nonneg.2 (pow_le_pow_right₀ (by linarith) hk1))) hden.le
    rw [hval, if_neg (not_lt.2 hnext)]

lemma balSeq_closed_zero {L : ℚ} {n : ℕ} (hL : 0 < L) (hn : 0 < n) :
    ∀ k, k ≤ n →
      (monthStep 0 (monthlyPayment L 0 n))^[k] L = L - (k : ℚ) * (L / (n : ℚ)) := by
  have hnQ : (0:ℚ) < (n:ℚ) := by exact_mod_cast hn
  intro k
  induction k with
  | zero => intro _; simp
  | succ k ih =>
    intro hk1
    have hk : k < n := hk1
    have hkQ : ((k:ℚ)) < (n:ℚ) := by exact_mod_cast hk
    rw [Function.iterate_succ_apply', ih (le_of_lt hk)]
    have hBpos : 0 < L - (k:ℚ) * (L / (n:ℚ)) := by
      have h1 : (k:ℚ) * (L / (n:ℚ)) < (n:ℚ) * (L / (n:ℚ)) :=
        mul_lt_mul_of_pos_right hkQ (div_pos hL hnQ)
      have h2 : (n:ℚ) * (L / (n:ℚ)) = L := by field_simp
      linarith
    rw [monthStep_of_pos hBpos, monthlyPayment_of_zero]
    have hval : L - (k:ℚ) * (L / (n:ℚ)) -
        (L / (n:ℚ) - (L - (k:ℚ) * (L / (n:ℚ))) * 0) =
        L - ((k:ℚ) + 1) * (L / (n:ℚ)) := by ring
    have hnext : 0 ≤ L - ((k:ℚ) + 1) * (L / (n:ℚ)) := by
      have hk1Q : ((k:ℚ) + 1) ≤ (n:ℚ) := by exact_mod_cast hk1
      have h1 : ((k:ℚ) + 1) * (L / (n:ℚ)) ≤ (n:ℚ) * (L / (n:ℚ)) :=
        mul_le_mul_of_nonneg_right hk1Q (div_pos hL hnQ).le
      have h2 : (n:ℚ) * (L / (n:ℚ)) = L := by field_simp
      linarith
    rw [hval, if_neg (not_lt.2 hnext)]
    push_cast
    ring

lemma iterate_final_zero {L r : ℚ} {n : ℕ} (hL : 0 < L) (hr : 0 ≤ r) (hn : 0 < n) :
    (monthStep r (monthlyPayment L r n))^[n] L = 0 := by
  rcases lt_or_eq_of_le hr with hr' | hr'
  · rw [balSeq_closed_pos hL hr' hn n (le_refl n)]
    simp
  · rw [← hr', balSeq_closed_zero hL hn n (le_refl n)]
    field_simp

/-! ### Derived parameters of a validated request -/

lemma numPayments_pos {p : MortgageParams} (ht : 0 < p.loan_term_years) :
    0 < numPayments p := by
  unfold numPayments
  omega

lemma monthlyRate_nonneg {p : MortgageParams} (hr : 0 ≤ p.annual_interest_rate) :
    0 ≤ monthlyRate p := by
  unfold monthlyRate
  positivity

lemma monthlyRate_eq_zero {p : MortgageParams} (hr : p.annual_interest_rate = 0) :
    monthlyRate p = 0 := by
  unfold monthlyRate
  rw [hr]
  norm_num

lemma computeResult_total_interest (p : MortgageParams) :
    (computeResult p).total_interest =
      round2 (monthlyPayment (loanAmount p) (monthlyRate p) (numPayments p) *
        ((numPayments p : ℕ) : ℚ) - loanAmount p) := rfl

lemma computeResult_schedule (p : MortgageParams) :
    (computeResult p).amortization_schedule =
      buildSchedule (monthlyRate p)
        (monthlyPayment (loanAmount p) (monthlyRate p) (numPayments p))
        p.loan_term_years.toNat 1 (loanAmount p) := rfl

lemma extractParams_fields (d : LoanDetails) (p : MortgageParams)
    (he : extractParams d = Except.ok p) :
    getFloat d.principal 0 = Except.ok p.principal ∧
    getFloat d.annual_interest_rate 0 = Except.ok p.annual_interest_rate ∧
    getInt d.loan_term_years 30 = Except.ok p.loan_term_years ∧
    getFloat d.down_payment 0 = Except.ok p.down_payment ∧
    getFloat d.property_tax 0 = Except.ok p.property_tax ∧
    getFloat d.insurance 0 = Except.ok p.insurance ∧
    getFloat d.pmi 0 = Except.ok p.pmi_rate := by
  unfold extractParams at he
  repeat' split at he
  all_goals first
    | exact Except.noConfusion he
    | (cases he
       refine ⟨?_, ?_, ?_, ?_, ?_, ?_, ?_⟩ <;> assumption)

lemma intSum_of_nonpos {r pay bal : ℚ} (h : bal ≤ 0) (m : ℕ) :
    intSum r pay m bal = 0 := by
  cases m with
  | zero => rfl
  | succ m => simp [intSum, h]

lemma prinSum_of_nonpos {r pay bal : ℚ} (h : bal ≤ 0) (m : ℕ) :
    prinSum r pay m bal = 0 := by
  cases m with
  | zero => rfl
  | succ m => simp [prinSum, h]

lemma schedule_length (p : MortgageParams) :
    (computeResult p).amortization_schedule.length = p.loan_term_years.toNat := by
  rw [computeResult_schedule, buildSchedule_length]

lemma schedule_row (p : MortgageParams) {i : ℕ} (hi : i < p.loan_term_years.toNat) :
    (computeResult p).amortization_schedule[i]? =
      some { year := 1 + i
             principal_paid := round2 (prinSum (monthlyRate p)
               (monthlyPayment (loanAmount p) (monthlyRate p) (numPayments p)) 12
               ((monthStep (monthlyRate p)
                 (monthlyPayment (loanAmount p) (monthlyRate p) (numPayments p)))^[12 * i]
                 (loanAmount p)))
             interest_paid := round2 (intSum (monthlyRate p)
               (monthlyPayment (loanAmount p) (monthlyRate p) (numPayments p)) 12
               ((monthStep (monthlyRate p)
                 (monthlyPayment (loanAmount p) (monthlyRate p) (numPayments p)))^[12 * i]
                 (loanAmount p)))
             remaining_balance := round2 ((monthStep (monthlyRate p)
               (monthlyPayment (loanAmount p) (monthlyRate p) (numPayments p)))^[12 * (i + 1)]
               (loanAmount p)) } := by
  rw [computeResult_schedule]
  exact buildSchedule_getElem _ _ _ _ _ _ hi

lemma schedule_index_lt {p : MortgageParams} {i : ℕ} {a : AmortizationRow}
    (h : (computeResult p).amortization_schedule[i]? = some a) :
    i < p.loan_term_years.toNat := by
  rw [List.getElem?_eq_some] at h
  have h1 := h.1
  rwa [schedule_length] at h1

end Mortgage

namespace Mortgage

/-! ### Claims -/

/-- C1: for every validated request the computed monthly payment equals
`loan_amount * monthly_rate * (1+monthly_rate)^num_periods /
((1+monthly_rate)^num_periods - 1)` when the monthly rate is positive,
equals `loan_amount / num_periods` when the monthly rate is exactly zero,
and is a positive (finite) rational in both cases. -/
theorem payment_solver_correct (p : MortgageParams) (hv : ValidParams p) :
    (0 < monthlyRate p →
      monthlyPayment (loanAmount p) (monthlyRate p) (numPayments p) =
        loanAmount p * (monthlyRate p * (1 + monthlyRate p) ^ numPayments p) /
          ((1 + monthlyRate p) ^ numPayments p - 1)) ∧
    (monthlyRate p = 0 →
      monthlyPayment (loanAmount p) (monthlyRate p) (numPayments p) =
        loanAmount p / ((numPayments p : ℕ) : ℚ)) ∧
    0 < monthlyPayment (loanAmount p) (monthlyRate p) (numPayments p) := by
  obtain ⟨hp, hr, ht, hl⟩ := hv
  refine ⟨fun h => monthlyPayment_of_pos h, fun h => ?_, ?_⟩
  · rw [h]
    exact monthlyPayment_of_zero
  · exact monthlyPayment_pos hl (monthlyRate_nonneg hr) (numPayments_pos ht)

theorem payment_solver_correct_witness :
    ValidParams (MortgageParams.mk 1200 0 1 0 0 0 0) ∧
    ((0 < monthlyRate (MortgageParams.mk 1200 0 1 0 0 0 0) →
      monthlyPayment (loanAmount (MortgageParams.mk 1200 0 1 0 0 0 0))
          (monthlyRate (MortgageParams.mk 1200 0 1 0 0 0 0))
          (numPayments (MortgageParams.mk 1200 0 1 0 0 0 0)) =
        loanAmount (MortgageParams.mk 1200 0 1 0 0 0 0) *
          (monthlyRate (MortgageParams.mk 1200 0 1 0 0 0 0) *
            (1 + monthlyRate (MortgageParams.mk 1200 0 1 0 0 0 0)) ^
              numPayments (MortgageParams.mk 1200 0 1 0 0 0 0)) /
          ((1 + monthlyRate (MortgageParams.mk 1200 0 1 0 0 0 0)) ^
              numPayments (MortgageParams.mk 1200 0 1 0 0 0 0) - 1)) ∧
    (monthlyRate (MortgageParams.mk 1200 0 1 0 0 0 0) = 0 →
      monthlyPayment (loanAmount (MortgageParams.mk 1200 0 1 0 0 0 0))
          (monthlyRate (MortgageParams.mk 1200 0 1 0 0 0 0))
          (numPayments (MortgageParams.mk 1200 0 1 0 0 0 0)) =
        loanAmount (MortgageParams.mk 1200 0 1 0 0 0 0) /
          ((numPayments (MortgageParams.mk 1200 0 1 0 0 0 0) : ℕ) : ℚ)) ∧
    0 < monthlyPayment (loanAmount (MortgageParams.mk 1200 0 1 0 0 0 0))
          (monthlyRate (MortgageParams.mk 1200 0 1 0 0 0 0))
          (numPayments (MortgageParams.mk 1200 0 1 0 0 0 0))) :=
  ⟨⟨by norm_num, by norm_num, by norm_num, by norm_num [loanAmount]⟩, payment_solver_correct (MortgageParams.mk 1200 0 1 0 0 0 0) ⟨by norm_num, by norm_num, by norm_num, by norm_num [loanAmount]⟩⟩

/-- C2: for every validated request the monthly PMI component is strictly
positive, and equal to `(loan_amount * pmi_rate / 100) / 12`, exactly when
`down_payment < 0.2 * principal` and `pmi_rate > 0`; otherwise it is 0, and
in particular `down_payment = 0.2 * principal` exactly yields 0 PMI. -/
theorem pmi_activation (p : MortgageParams) (hv : ValidParams p) :
    (0 < pmiMonthly p ↔ p.down_payment < 0.2 * p.principal ∧ 0 < p.pmi_rate) ∧
    (p.down_payment < 0.2 * p.principal ∧ 0 < p.pmi_rate →
      pmiMonthly p = loanAmount p * p.pmi_rate / 100 / 12) ∧
    (¬(p.down_payment < 0.2 * p.principal ∧ 0 < p.pmi_rate) → pmiMonthly p = 0) ∧
    (p.down_payment = 0.2 * p.principal → pmiMonthly p = 0) := by
  obtain ⟨hp, -, -, hl⟩ := hv
  by_cases h : p.down_payment < 0.2 * p.principal ∧ p.pmi_rate > 0
  · have hval : pmiMonthly p = loanAmount p * p.pmi_rate / 100 / 12 := by
      unfold pmiMonthly
      rw [if_pos h]
    have hpos : 0 < pmiMonthly p := by
      rw [hval]
      exact div_pos (div_pos (mul_pos hl h.2) (by norm_num)) (by norm_num)
    refine ⟨⟨fun _ => h, fun _ => hpos⟩, fun _ => hval, fun hn => absurd h hn, fun heq => ?_⟩
    have h1 := h.1
    rw [heq] at h1
    exact absurd h1 (lt_irrefl _)
  · have hval : pmiMonthly p = 0 := by
      unfold pmiMonthly
      rw [if_neg h]
    refine ⟨⟨fun h0 => ?_, fun hc => absurd hc h⟩, fun hc => absurd hc h,
      fun _ => hval, fun _ => hval⟩
    rw [hval] at h0
    exact absurd h0 (lt_irrefl 0)

theorem pmi_activation_witness :
    ValidParams (MortgageParams.mk 1000 0 1 100 0 0 1) ∧
    ((0 < pmiMonthly (MortgageParams.mk 1000 0 1 100 0 0 1) ↔
      (MortgageParams.mk 1000 0 1 100 0 0 1).down_payment <
          0.2 * (MortgageParams.mk 1000 0 1 100 0 0 1).principal ∧
        0 < (MortgageParams.mk 1000 0 1 100 0 0 1).pmi_rate) ∧
    ((MortgageParams.mk 1000 0 1 100 0 0 1).down_payment <
        0.2 * (MortgageParams.mk 1000 0 1 100 0 0 1).principal ∧
      0 < (MortgageParams.mk 1000 0 1 100 0 0 1).pmi_rate →
      pmiMonthly (MortgageParams.mk 1000 0 1 100 0 0 1) =
        loanAmount (MortgageParams.mk 1000 0 1 100 0 0 1) *
          (MortgageParams.mk 1000 0 1 100 0 0 1).pmi_rate / 100 / 12) ∧
    (¬((MortgageParams.mk 1000 0 1 100 0 0 1).down_payment <
        0.2 * (MortgageParams.mk 1000 0 1 100 0 0 1).principal ∧
      0 < (MortgageParams.mk 1000 0 1 100 0 0 1).pmi_rate) →
      pmiMonthly (MortgageParams.mk 1000 0 1 100 0 0 1) = 0) ∧
    ((MortgageParams.mk 1000 0 1 100 0 0 1).down_payment =
        0.2 * (MortgageParams.mk 1000 0 1 100 0 0 1).principal →
      pmiMonthly (MortgageParams.mk 1000 0 1 100 0 0 1) = 0)) :=
  ⟨⟨by norm_num, by norm_num, by norm_num, by norm_num [loanAmount]⟩, pmi_activation (MortgageParams.mk 1000 0 1 100 0 0 1) ⟨by norm_num, by norm_num, by norm_num, by norm_num [loanAmount]⟩⟩

/-- C5: for every validated request the reported `total_interest` is the
2-decimal rounding of `monthly_payment * num_periods - loan_amount` (hence
within rounding tolerance of it), and it is exactly 0 when the annual rate
is 0. -/
theorem total_interest_identity (p : MortgageParams) (hv : ValidParams p) :
    (computeResult p).total_interest =
      round2 (monthlyPayment (loanAmount p) (monthlyRate p) (numPayments p) *
        ((numPayments p : ℕ) : ℚ) - loanAmount p) ∧
    |(computeResult p).total_interest -
      (monthlyPayment (loanAmount p) (monthlyRate p) (numPayments p) *
        ((numPayments p : ℕ) : ℚ) - loanAmount p)| ≤ 1 / 100 ∧
    (p.annual_interest_rate = 0 → (computeResult p).total_interest = 0) := by
  obtain ⟨hp, hr, ht, hl⟩ := hv
  refine ⟨rfl, ?_, ?_⟩
  · rw [computeResult_total_interest]
    exact le_trans (abs_round2_sub_le _) (by norm_num)
  · intro h0
    rw [computeResult_total_interest, monthlyRate_eq_zero h0, monthlyPayment_of_zero]
    have hn : ((numPayments p : ℕ) : ℚ) ≠ 0 := by
      have := numPayments_pos ht
      positivity
    rw [div_mul_cancel₀ _ hn, sub_self, round2_zero]

theorem total_interest_identity_witness :
    ValidParams (MortgageParams.mk 1200 0 1 0 0 0 0) ∧
    ((computeResult (MortgageParams.mk 1200 0 1 0 0 0 0)).total_interest =
      round2 (monthlyPayment (loanAmount (MortgageParams.mk 1200 0 1 0 0 0 0))
          (monthlyRate (MortgageParams.mk 1200 0 1 0 0 0 0))
          (numPayments (MortgageParams.mk 1200 0 1 0 0 0 0)) *
        ((numPayments (MortgageParams.mk 1200 0 1 0 0 0 0) : ℕ) : ℚ) -
        loanAmount (MortgageParams.mk 1200 0 1 0 0 0 0)) ∧
    |(computeResult (MortgageParams.mk 1200 0 1 0 0 0 0)).total_interest -
      (monthlyPayment (loanAmount (MortgageParams.mk 1200 0 1 0 0 0 0))
          (monthlyRate (MortgageParams.mk 1200 0 1 0 0 0 0))
          (numPayments (MortgageParams.mk 1200 0 1 0 0 0 0)) *
        ((numPayments (MortgageParams.mk 1200 0 1 0 0 0 0) : ℕ) : ℚ) -
        loanAmount (MortgageParams.mk 1200 0 1 0 0 0 0))| ≤ 1 / 100 ∧
    ((MortgageParams.mk 1200 0 1 0 0 0 0).annual_interest_rate = 0 →
      (computeResult (MortgageParams.mk 1200 0 1 0 0 0 0)).total_interest = 0)) :=
  ⟨⟨by norm_num, by norm_num, by norm_num, by norm_num [loanAmount]⟩, total_interest_identity (MortgageParams.mk 1200 0 1 0 0 0 0) ⟨by norm_num, by norm_num, by norm_num, by norm_num [loanAmount]⟩⟩

/-- C8: an exception raised inside the computation (here: a numeric coercion
failure during parameter extraction) is caught at the component boundary and
reported as a generic error carrying the cause's description; the call
returns only an error value, never a partial result. -/
theorem errors_caught_at_boundary (d : LoanDetails) (e : String)
    (he : extractParams d = Except.error e) :
    calculate_mortgage_loan d = Except.error ("Error: " ++ e) := by
  simp only [calculate_mortgage_loan, he]

theorem errors_caught_at_boundary_witness :
    extractParams (LoanDetails.mk (some (PyVal.malformed "abc")) none none none none none none) =
      Except.error "could not convert string to float: 'abc'" ∧
    calculate_mortgage_loan
        (LoanDetails.mk (some (PyVal.malformed "abc")) none none none none none none) =
      Except.error ("Error: " ++ "could not convert string to float: 'abc'") :=
  ⟨rfl,
   errors_caught_at_boundary
     (LoanDetails.mk (some (PyVal.malformed "abc")) none none none none none none)
     "could not convert string to float: 'abc'" rfl⟩

/-- C3: for every raw input mapping whose fields coerce, the engine returns a
validation error (a result-shaped error value, not a success) exactly when
`principal <= 0`, or `annual_interest_rate < 0`, or `loan_term_years <= 0`,
or `principal - down_payment <= 0`; when none of these hold the call
succeeds regardless of every other field, so no other field is validated. -/
theorem validation_complete (d : LoanDetails) (p : MortgageParams)
    (he : extractParams d = Except.ok p) :
    ((∃ e, calculate_mortgage_loan d = Except.error e ∧ e ∈ validationMessages) ↔
      (p.principal ≤ 0 ∨ p.annual_interest_rate < 0 ∨ p.loan_term_years ≤ 0 ∨
        p.principal - p.down_payment ≤ 0)) ∧
    (¬(p.principal ≤ 0 ∨ p.annual_interest_rate < 0 ∨ p.loan_term_years ≤ 0 ∨
        p.principal - p.down_payment ≤ 0) →
      calculate_mortgage_loan d = Except.ok (computeResult p)) := by
  simp only [calculate_mortgage_loan, he]
  split_ifs with h1 h2 h3 h4
  · refine ⟨⟨fun _ => Or.inl h1, fun _ => ⟨_, rfl, ?_⟩⟩,
      fun hn => absurd (Or.inl h1) hn⟩
    simp [validationMessages]
  · refine ⟨⟨fun _ => Or.inr (Or.inl h2), fun _ => ⟨_, rfl, ?_⟩⟩,
      fun hn => absurd (Or.inr (Or.inl h2)) hn⟩
    simp [validationMessages]
  · refine ⟨⟨fun _ => Or.inr (Or.inr (Or.inl h3)), fun _ => ⟨_, rfl, ?_⟩⟩,
      fun hn => absurd (Or.inr (Or.inr (Or.inl h3))) hn⟩
    simp [validationMessages]
  · refine ⟨⟨fun _ => Or.inr (Or.inr (Or.inr h4)), fun _ => ⟨_, rfl, ?_⟩⟩,
      fun hn => absurd (Or.inr (Or.inr (Or.inr h4))) hn⟩
    simp [validationMessages]
  · constructor
    · constructor
      · rintro ⟨e, heq, -⟩
        exact heq.elim
      · intro hd
        rcases hd with h | h | h | h
        · exact absurd h h1
        · exact absurd h h2
        · exact absurd h h3
        · exact absurd h h4
    · intro _
      rfl

theorem validation_complete_witness :
    extractParams
        (LoanDetails.mk (some (PyVal.num 1000)) (some (PyVal.num 5)) (some (PyVal.num 30))
          (some (PyVal.num 2000)) none none none) =
      Except.ok (MortgageParams.mk 1000 5 30 2000 0 0 0) ∧
    (((∃ e, calculate_mortgage_loan
          (LoanDetails.mk (some (PyVal.num 1000)) (some (PyVal.num 5)) (some (PyVal.num 30))
            (some (PyVal.num 2000)) none none none) = Except.error e ∧
        e ∈ validationMessages) ↔
      ((MortgageParams.mk 1000 5 30 2000 0 0 0).principal ≤ 0 ∨
        (MortgageParams.mk 1000 5 30 2000 0 0 0).annual_interest_rate < 0 ∨
        (MortgageParams.mk 1000 5 30 2000 0 0 0).loan_term_years ≤ 0 ∨
        (MortgageParams.mk 1000 5 30 2000 0 0 0).principal -
          (MortgageParams.mk 1000 5 30 2000 0 0 0).down_payment ≤ 0)) ∧
    (¬((MortgageParams.mk 1000 5 30 2000 0 0 0).principal ≤ 0 ∨
        (MortgageParams.mk 1000 5 30 2000 0 0 0).annual_interest_rate < 0 ∨
        (MortgageParams.mk 1000 5 30 2000 0 0 0).loan_term_years ≤ 0 ∨
        (MortgageParams.mk 1000 5 30 2000 0 0 0).principal -
          (MortgageParams.mk 1000 5 30 2000 0 0 0).down_payment ≤ 0) →
      calculate_mortgage_loan
          (LoanDetails.mk (some (PyVal.num 1000)) (some (PyVal.num 5)) (some (PyVal.num 30))
            (some (PyVal.num 2000)) none none none) =
        Except.ok (computeResult (MortgageParams.mk 1000 5 30 2000 0 0 0)))) :=
  ⟨rfl,
   validation_complete
     (LoanDetails.mk (some (PyVal.num 1000)) (some (PyVal.num 5)) (some (PyVal.num 30))
       (some (PyVal.num 2000)) none none none)
     (MortgageParams.mk 1000 5 30 2000 0 0 0) rfl⟩

/-- C9: when the input mapping omits `loan_term_years`, the request is not
rejected for a missing term: the term silently defaults to 30 years, and an
otherwise-valid request yields a result whose amortization schedule has
exactly 30 rows. -/
theorem missing_term_defaults_to_30 (d : LoanDetails) (p : MortgageParams)
    (hterm : d.loan_term_years = none) (he : extractParams d = Except.ok p)
    (hp : 0 < p.principal) (hr : 0 ≤ p.annual_interest_rate) (hl : 0 < loanAmount p) :
    p.loan_term_years = 30 ∧
    calculate_mortgage_loan d = Except.ok (computeResult p) ∧
    (computeResult p).amortization_schedule.length = 30 := by
  have h30 : p.loan_term_years = 30 := by
    have hf := (extractParams_fields d p he).2.2.1
    rw [hterm] at hf
    have hf2 : Except.ok (30 : ℤ) = Except.ok p.loan_term_years := hf
    injection hf2 with h
    exact h.symm
  have hl2 : ¬(p.principal - p.down_payment ≤ 0) := by
    unfold loanAmount at hl
    exact not_le.2 hl
  refine ⟨h30, ?_, ?_⟩
  · simp only [calculate_mortgage_loan, he]
    rw [if_neg (not_le.2 hp), if_neg (not_lt.2 hr),
      if_neg (by rw [h30]; norm_num : ¬p.loan_term_years ≤ 0), if_neg hl2]
  · rw [schedule_length, h30]
    rfl

theorem missing_term_defaults_to_30_witness :
    (LoanDetails.mk (some (PyVal.num 1200)) (some (PyVal.num 0)) none none none none
      none).loan_term_years = none ∧
    extractParams
        (LoanDetails.mk (some (PyVal.num 1200)) (some (PyVal.num 0)) none none none none none) =
      Except.ok (MortgageParams.mk 1200 0 30 0 0 0 0) ∧
    0 < (MortgageParams.mk 1200 0 30 0 0 0 0).principal ∧
    0 ≤ (MortgageParams.mk 1200 0 30 0 0 0 0).annual_interest_rate ∧
    0 < loanAmount (MortgageParams.mk 1200 0 30 0 0 0 0) ∧
    ((MortgageParams.mk 1200 0 30 0 0 0 0).loan_term_years = 30 ∧
      calculate_mortgage_loan
          (LoanDetails.mk (some (PyVal.num 1200)) (some (PyVal.num 0)) none none none none
            none) =
        Except.ok (computeResult (MortgageParams.mk 1200 0 30 0 0 0 0)) ∧
      (computeResult (MortgageParams.mk 1200 0 30 0 0 0 0)).amortization_schedule.length = 30) :=
  ⟨rfl, rfl, by norm_num, by norm_num, by norm_num [loanAmount],
   missing_term_defaults_to_30
     (LoanDetails.mk (some (PyVal.num 1200)) (some (PyVal.num 0)) none none none none none)
     (MortgageParams.mk 1200 0 30 0 0 0 0) rfl rfl (by norm_num) (by norm_num)
     (by norm_num [loanAmount])⟩

/-- C10: a strictly negative down payment passes every validation check
(given positive principal, non-negative rate, positive term), the derived
loan amount then strictly exceeds the principal, and the negative down
payment satisfies the PMI activation condition, so the monthly PMI is
positive whenever `pmi_rate > 0`. -/
theorem negative_down_payment_accepted (p : MortgageParams)
    (hp : 0 < p.principal) (hr : 0 ≤ p.annual_interest_rate)
    (ht : 0 < p.loan_term_years) (hd : p.down_payment < 0) :
    (∀ d, extractParams d = Except.ok p →
      calculate_mortgage_loan d = Except.ok (computeResult p)) ∧
    p.principal < loanAmount p ∧
    (0 < p.pmi_rate → 0 < pmiMonthly p) := by
  have hl : p.principal < loanAmount p := by
    unfold loanAmount
    linarith
  have hl0 : 0 < loanAmount p := lt_trans hp hl
  have hl2 : ¬(p.principal - p.down_payment ≤ 0) := by
    unfold loanAmount at hl0
    exact not_le.2 hl0
  refine ⟨?_, hl, ?_⟩
  · intro d he
    simp only [calculate_mortgage_loan, he]
    rw [if_neg (not_le.2 hp), if_neg (not_lt.2 hr), if_neg (not_le.2 ht), if_neg hl2]
  · intro hpmi
    have hcond : p.down_payment < 0.2 * p.principal ∧ p.pmi_rate > 0 :=
      ⟨lt_trans hd (by positivity), hpmi⟩
    unfold pmiMonthly
    rw [if_pos hcond]
    exact div_pos (div_pos (mul_pos hl0 hpmi) (by norm_num)) (by norm_num)

theorem negative_down_payment_accepted_witness :
    0 < (MortgageParams.mk 1000 0 1 (-100) 0 0 1).principal ∧
    0 ≤ (MortgageParams.mk 1000 0 1 (-100) 0 0 1).annual_interest_rate ∧
    0 < (MortgageParams.mk 1000 0 1 (-100) 0 0 1).loan_term_years ∧
    (MortgageParams.mk 1000 0 1 (-100) 0 0 1).down_payment < 0 ∧
    ((∀ d, extractParams d = Except.ok (MortgageParams.mk 1000 0 1 (-100) 0 0 1) →
      calculate_mortgage_loan d =
        Except.ok (computeResult (MortgageParams.mk 1000 0 1 (-100) 0 0 1))) ∧
    (MortgageParams.mk 1000 0 1 (-100) 0 0 1).principal <
      loanAmount (MortgageParams.mk 1000 0 1 (-100) 0 0 1) ∧
    (0 < (MortgageParams.mk 1000 0 1 (-100) 0 0 1).pmi_rate →
      0 < pmiMonthly (MortgageParams.mk 1000 0 1 (-100) 0 0 1))) :=
  ⟨by norm_num, by norm_num, by norm_num, by norm_num,
   negative_down_payment_accepted (MortgageParams.mk 1000 0 1 (-100) 0 0 1)
     (by norm_num) (by norm_num) (by norm_num) (by norm_num)⟩


/-- C4: for every validated request the amortization schedule has exactly
`term_years` rows with year fields ascending 1, 2, ..., and every row whose
year starts after the balance has already reached zero reports zero
principal, zero interest and a zero remaining balance. -/
theorem schedule_shape (p : MortgageParams) (hv : ValidParams p) :
    (((computeResult p).amortization_schedule.length : ℤ) = p.loan_term_years) ∧
    (∀ i a, (computeResult p).amortization_schedule[i]? = some a → a.year = i + 1) ∧
    (∀ i a, (computeResult p).amortization_schedule[i]? = some a →
      (monthStep (monthlyRate p)
          (monthlyPayment (loanAmount p) (monthlyRate p) (numPayments p)))^[12 * i]
          (loanAmount p) = 0 →
      a.principal_paid = 0 ∧ a.interest_paid = 0 ∧ a.remaining_balance = 0) := by
  obtain ⟨hp, hr, ht, hl⟩ := hv
  refine ⟨?_, ?_, ?_⟩
  · rw [schedule_length]
    exact Int.toNat_of_nonneg (le_of_lt ht)
  · intro i a ha
    have hi : i < p.loan_term_years.toNat := schedule_index_lt ha
    rw [schedule_row p hi] at ha
    cases ha
    show 1 + i = i + 1
    omega
  · intro i a ha hz
    have hi : i < p.loan_term_years.toNat := schedule_index_lt ha
    rw [schedule_row p hi] at ha
    cases ha
    refine ⟨?_, ?_, ?_⟩
    · show round2 (prinSum (monthlyRate p)
        (monthlyPayment (loanAmount p) (monthlyRate p) (numPayments p)) 12
        ((monthStep (monthlyRate p)
          (monthlyPayment (loanAmount p) (monthlyRate p) (numPayments p)))^[12 * i]
          (loanAmount p))) = 0
      rw [hz, prinSum_of_nonpos (le_refl 0), round2_zero]
    · show round2 (intSum (monthlyRate p)
        (monthlyPayment (loanAmount p) (monthlyRate p) (numPayments p)) 12
        ((monthStep (monthlyRate p)
          (monthlyPayment (loanAmount p) (monthlyRate p) (numPayments p)))^[12 * i]
          (loanAmount p))) = 0
      rw [hz, intSum_of_nonpos (le_refl 0), round2_zero]
    · show round2 ((monthStep (monthlyRate p)
        (monthlyPayment (loanAmount p) (monthlyRate p) (numPayments p)))^[12 * (i + 1)]
        (loanAmount p)) = 0
      have hiter : (monthStep (monthlyRate p)
          (monthlyPayment (loanAmount p) (monthlyRate p) (numPayments p)))^[12 * (i + 1)]
          (loanAmount p) = 0 := by
        rw [show 12 * (i + 1) = 12 + 12 * i from by omega, Function.iterate_add_apply, hz,
          Function.iterate_fixed (monthStep_of_nonpos (le_refl 0))]
      rw [hiter, round2_zero]

theorem schedule_shape_witness :
    ValidParams (MortgageParams.mk 1200 0 1 0 0 0 0) ∧
    ((((computeResult (MortgageParams.mk 1200 0 1 0 0 0 0)).amortization_schedule.length : ℤ) =
        (MortgageParams.mk 1200 0 1 0 0 0 0).loan_term_years) ∧
    (∀ i a, (computeResult (MortgageParams.mk 1200 0 1 0 0 0 0)).amortization_schedule[i]? =
        some a → a.year = i + 1) ∧
    (∀ i a, (computeResult (MortgageParams.mk 1200 0 1 0 0 0 0)).amortization_schedule[i]? =
        some a →
      (monthStep (monthlyRate (MortgageParams.mk 1200 0 1 0 0 0 0))
          (monthlyPayment (loanAmount (MortgageParams.mk 1200 0 1 0 0 0 0))
            (monthlyRate (MortgageParams.mk 1200 0 1 0 0 0 0))
            (numPayments (MortgageParams.mk 1200 0 1 0 0 0 0))))^[12 * i]
          (loanAmount (MortgageParams.mk 1200 0 1 0 0 0 0)) = 0 →
      a.principal_paid = 0 ∧ a.interest_paid = 0 ∧ a.remaining_balance = 0)) :=
  ⟨⟨by norm_num, by norm_num, by norm_num, by norm_num [loanAmount]⟩,
   schedule_shape (MortgageParams.mk 1200 0 1 0 0 0 0)
     ⟨by norm_num, by norm_num, by norm_num, by norm_num [loanAmount]⟩⟩

/-- C6: for every validated request the rounded remaining balances of
consecutive schedule rows are non-increasing, and the rounded per-row
interest is non-increasing over the life of the loan. -/
theorem schedule_monotone (p : MortgageParams) (hv : ValidParams p) :
    ∀ i a b, (computeResult p).amortization_schedule[i]? = some a →
      (computeResult p).amortization_schedule[i + 1]? = some b →
      b.remaining_balance ≤ a.remaining_balance ∧ b.interest_paid ≤ a.interest_paid := by
  obtain ⟨hp, hr, ht, hl⟩ := hv
  have hr0 : 0 ≤ monthlyRate p := monthlyRate_nonneg hr
  have hn : 0 < numPayments p := numPayments_pos ht
  have hpayinv : loanAmount p * monthlyRate p <
      monthlyPayment (loanAmount p) (monthlyRate p) (numPayments p) :=
    mul_rate_lt_monthlyPayment hl hr0 hn
  intro i a b ha hb
  have hib : i + 1 < p.loan_term_years.toNat := schedule_index_lt hb
  have hia : i < p.loan_term_years.toNat := by omega
  rw [schedule_row p hia] at ha
  rw [schedule_row p hib] at hb
  cases ha
  cases hb
  have hInv1 := iterate_monthStep_invariant hr0 (le_of_lt hl) hpayinv (12 * i)
  have hInv2 := iterate_monthStep_invariant hr0 (le_of_lt hl) hpayinv (12 * (i + 1))
  have hsplit1 : (monthStep (monthlyRate p)
      (monthlyPayment (loanAmount p) (monthlyRate p) (numPayments p)))^[12 * (i + 1)]
      (loanAmount p) =
      (monthStep (monthlyRate p)
        (monthlyPayment (loanAmount p) (monthlyRate p) (numPayments p)))^[12]
        ((monthStep (monthlyRate p)
          (monthlyPayment (loanAmount p) (monthlyRate p) (numPayments p)))^[12 * i]
          (loanAmount p)) := by
    rw [← Function.iterate_add_apply]
    congr 1
    omega
  have hsplit2 : (monthStep (monthlyRate p)
      (monthlyPayment (loanAmount p) (monthlyRate p) (numPayments p)))^[12 * (i + 1 + 1)]
      (loanAmount p) =
      (monthStep (monthlyRate p)
        (monthlyPayment (loanAmount p) (monthlyRate p) (numPayments p)))^[12]
        ((monthStep (monthlyRate p)
          (monthlyPayment (loanAmount p) (monthlyRate p) (numPayments p)))^[12 * (i + 1)]
          (loanAmount p)) := by
    rw [← Function.iterate_add_apply]
    congr 1
    omega
  constructor
  · apply round2_mono
    rw [hsplit2]
    exact iterate_monthStep_le_self hr0 hInv2.1 hInv2.2 12
  · apply round2_mono
    apply intSum_mono hr0 12 hInv2.1
    rw [hsplit1]
    exact iterate_monthStep_le_self hr0 hInv1.1 hInv1.2 12

theorem schedule_monotone_witness :
    ValidParams (MortgageParams.mk 1200 0 1 0 0 0 0) ∧
    (∀ i a b,
      (computeResult (MortgageParams.mk 1200 0 1 0 0 0 0)).amortization_schedule[i]? = some a →
      (computeResult (MortgageParams.mk 1200 0 1 0 0 0 0)).amortization_schedule[i + 1]? =
        some b →
      b.remaining_balance ≤ a.remaining_balance ∧ b.interest_paid ≤ a.interest_paid) :=
  ⟨⟨by norm_num, by norm_num, by norm_num, by norm_num [loanAmount]⟩,
   schedule_monotone (MortgageParams.mk 1200 0 1 0 0 0 0)
     ⟨by norm_num, by norm_num, by norm_num, by norm_num [loanAmount]⟩⟩

/-- C7: for every validated request the simulated balance after the final
period (period `term_years * 12`) is within 0.01 of zero — in this exact
model it is exactly zero — and therefore the last schedule row reports a
remaining balance within 0.01 of zero. -/
theorem final_balance_paid_off (p : MortgageParams) (hv : ValidParams p) :
    |(monthStep (monthlyRate p)
        (monthlyPayment (loanAmount p) (monthlyRate p) (numPayments p)))^[numPayments p]
        (loanAmount p)| ≤ 1 / 100 ∧
    (∀ a, (computeResult p).amortization_schedule.getLast? = some a →
      |a.remaining_balance| ≤ 1 / 100) := by
  obtain ⟨hp, hr, ht, hl⟩ := hv
  have hr0 : 0 ≤ monthlyRate p := monthlyRate_nonneg hr
  have hn : 0 < numPayments p := numPayments_pos ht
  have hz := iterate_final_zero hl hr0 hn
  constructor
  · rw [hz]
    norm_num
  · intro a ha
    rw [List.getLast?_eq_getElem?, schedule_length] at ha
    have htn : 0 < p.loan_term_years.toNat := by omega
    have hi : p.loan_term_years.toNat - 1 < p.loan_term_years.toNat := by omega
    rw [schedule_row p hi] at ha
    cases ha
    show |round2 ((monthStep (monthlyRate p)
      (monthlyPayment (loanAmount p) (monthlyRate p) (numPayments p)))^[12 *
        (p.loan_term_years.toNat - 1 + 1)] (loanAmount p))| ≤ 1 / 100
    have hidx : 12 * (p.loan_term_years.toNat - 1 + 1) = numPayments p := by
      unfold numPayments
      omega
    rw [hidx, hz, round2_zero]
    norm_num

theorem final_balance_paid_off_witness :
    ValidParams (MortgageParams.mk 1200 0 1 0 0 0 0) ∧
    (|(monthStep (monthlyRate (MortgageParams.mk 1200 0 1 0 0 0 0))
        (monthlyPayment (loanAmount (MortgageParams.mk 1200 0 1 0 0 0 0))
          (monthlyRate (MortgageParams.mk 1200 0 1 0 0 0 0))
          (numPayments (MortgageParams.mk 1200 0 1 0 0 0 0))))^[numPayments
            (MortgageParams.mk 1200 0 1 0 0 0 0)]
        (loanAmount (MortgageParams.mk 1200 0 1 0 0 0 0))| ≤ 1 / 100 ∧
    (∀ a, (computeResult (MortgageParams.mk 1200 0 1 0 0 0 0)).amortization_schedule.getLast? =
        some a → |a.remaining_balance| ≤ 1 / 100)) :=
  ⟨⟨by norm_num, by norm_num, by norm_num, by norm_num [loanAmount]⟩,
   final_balance_paid_off (MortgageParams.mk 1200 0 1 0 0 0 0)
     ⟨by norm_num, by norm_num, by norm_num, by norm_num [loanAmount]⟩⟩

end Mortgage
